import Mathlib

/-!
# cve_app: command-line CVE lookup

A shallow embedding of `src/cve_app.go`.  The program is a single `main`:
it parses the command line, completes the identifier with the prefix `CVE-`,
issues one HTTP GET, optionally echoes the raw body, decodes the body and
hands ten lines to a table writer.

What the program does to the outside world is recorded as a trace of
events (`Event`) together with the way the process ends (`Exit`).  The
network and the JSON decoder are the two collaborators the program calls
and does not implement; they are the fields of `World`.  Text is `String`;
the program only compares a prefix, concatenates and interpolates text, so
nothing depends on how a string is encoded.
-/

namespace CveApp

/-! ## Library functions the program calls -/

/-- Go `strings.HasPrefix(s, prefix)`:
`len(s) >= len(prefix) && s[:len(prefix)] == prefix`. -/
def HasPrefix (s pre : String) : Bool :=
  decide (s.length ≥ pre.length) && (s.data.take pre.length == pre.data)

/-- A finite `float64`: the value `(-1)^neg * mant * 2^exp`.  The sign is
kept apart so that negative zero is a value of its own. -/
structure Float64 where
  neg : Bool
  mant : Nat
  exp : Int
  deriving DecidableEq, Repr

/-- The zero value of a `float64` field. -/
def Float64.zero : Float64 := ⟨false, 0, 0⟩

/-- The magnitude `mant * 2^exp` scaled by `10^6` and rounded to the nearest
integer, ties to even: the digits Go prints for a precision of six. -/
def scaledRound (mant : Nat) (exp : Int) : Nat :=
  let num := if 0 ≤ exp then mant * 2 ^ exp.toNat * 10 ^ 6 else mant * 10 ^ 6
  let den := if 0 ≤ exp then 1 else 2 ^ (-exp).toNat
  let q := num / den
  let r := num % den
  if den < 2 * r ∨ (2 * r = den ∧ q % 2 = 1) then q + 1 else q

/-- Six decimal digits, zero-padded on the left. -/
def frac6 (n : Nat) : String :=
  let s := Nat.repr n
  String.mk (List.replicate (6 - s.length) '0') ++ s

/-- The verb `%f` of Go `fmt` on a finite `float64`: sign, integer part,
a point and six decimals. -/
def formatFloat (x : Float64) : String :=
  let n := scaledRound x.mant x.exp
  (if x.neg then "-" else "") ++ Nat.repr (n / 10 ^ 6) ++ "." ++ frac6 (n % 10 ^ 6)

/-! ## Data model (`APIResponse`, lines 15-42) -/

structure DataMeta where
  ID : String
  deriving DecidableEq, Repr

structure DescriptionDatum where
  Value : String
  deriving DecidableEq, Repr

structure Description where
  DescriptionData : List DescriptionDatum
  deriving DecidableEq, Repr

structure CVE where
  DataMeta : DataMeta
  Description : Description
  deriving DecidableEq, Repr

structure CVSSV3 where
  BaseScore : Float64
  BaseSeverity : String
  AttackVector : String
  AttackComplexity : String
  VectorString : String
  deriving DecidableEq, Repr

structure BaseMetricV3 where
  CVSSV3 : CVSSV3
  deriving DecidableEq, Repr

structure Impact where
  BaseMetricV3 : BaseMetricV3
  deriving DecidableEq, Repr

structure CVEItem where
  CVE : CVE
  Impact : Impact
  PublishedDate : String
  deriving DecidableEq, Repr

structure Result where
  CVEItems : List CVEItem
  deriving DecidableEq, Repr

structure APIResponse where
  Result : Result
  deriving DecidableEq, Repr

/-! ## The outside world -/

/-- What `http.Get` hands back when the request went through: reading the
body to its end (`ioutil.ReadAll`) yields the bytes read and possibly an
error. -/
structure Response where
  body : String
  readErr : Option String

/-- The collaborators of one run: the network (`http.Get` followed by
`ioutil.ReadAll`) and the JSON decoder (`json.Unmarshal` into
`APIResponse`). -/
structure World where
  httpGet : String → Except String Response
  unmarshal : String → Except String APIResponse

/-- The errors of the flag package, reported on standard error. -/
inductive FlagError where
  /-- The message `bad flag syntax:` with the token. -/
  | badSyntax (token : String)
  /-- The message `flag provided but not defined:` with `-` and the name. -/
  | notDefined (name : String)
  /-- The message `invalid boolean value` with the value, for `-v=value`. -/
  | invalidBool (value : String)
  deriving DecidableEq, Repr

/-- One observable action of the program. -/
inductive Event where
  /-- The flag package reports a command-line error on standard error. -/
  | flagError (err : FlagError)
  /-- The function `flag.Usage` runs: usage text on standard error. -/
  | usage
  /-- The call `http.Get(url)`. -/
  | httpGet (url : String)
  /-- Text written straight to standard output. -/
  | stdout (text : String)
  /-- One write handed to the table writer. -/
  | tabWrite (text : String)
  /-- The table writer is flushed to standard output. -/
  | tabFlush
  /-- The call `log.Fatalf`: the message goes to standard error. -/
  | logFatal (msg : String)
  deriving DecidableEq, Repr

/-- How the process ends. -/
inductive Exit where
  /-- The function `main` returns: status 0. -/
  | returned
  /-- The call `os.Exit(code)`. -/
  | osExit (code : Nat)
  /-- A run-time panic: status 2. -/
  | panicked (msg : String)
  deriving DecidableEq, Repr

/-- The exit status of the process. -/
def Exit.status : Exit → Nat
  | .returned => 0
  | .osExit code => code
  | .panicked _ => 2

/-- A whole run: what happened, in order, and how it ended. -/
structure Run where
  trace : List Event
  exit : Exit
  deriving DecidableEq, Repr

/-! ## Command line (lines 50-57) -/

/-- Go `strconv.ParseBool`, which reads the value of `-v=value`. -/
def parseBool (s : String) : Option Bool :=
  if s ∈ ["1", "t", "T", "TRUE", "true", "True"] then some true
  else if s ∈ ["0", "f", "F", "FALSE", "false", "False"] then some false
  else none

/-- The result of `flag.Parse`. -/
inductive FlagResult where
  /-- Parsing ended: the value of `-v` and the remaining arguments. -/
  | parsed (verbose : Bool) (args : List String)
  /-- An undefined `-h` or `-help`. -/
  | help
  /-- Any other error. -/
  | failed (err : FlagError)
  deriving DecidableEq, Repr

/-- Go `flag.Parse` with the one boolean flag `v` defined (line 50).  A
token is a flag when it has at least two characters and starts with `-`;
one or two leading dashes are dropped, `--` alone ends the flags, the name
runs to the first `=` after its first character; the first token that is
not a flag ends the parsing and stays, with all that follows, in the
remaining arguments. -/
def flagParse : List String → Bool → FlagResult
  | [], verbose => .parsed verbose []
  | s :: rest, verbose =>
    match s.data with
    | '-' :: c :: cs =>
      if c = '-' ∧ cs = [] then .parsed verbose rest
      else
        match (if c = '-' then cs else c :: cs) with
        | [] => .failed (.badSyntax s)
        | n0 :: ns =>
          if n0 = '-' ∨ n0 = '=' then .failed (.badSyntax s)
          else
            let name := String.mk (n0 :: ns.takeWhile (fun ch => ch != '='))
            let value := (ns.dropWhile (fun ch => ch != '=')).tail?
            if name = "v" then
              match value with
              | none => flagParse rest true
              | some v =>
                match parseBool (String.mk v) with
                | some b => flagParse rest b
                | none => .failed (.invalidBool (String.mk v))
            else if name = "help" ∨ name = "h" then .help
            else .failed (.notDefined name)
    | _ => .parsed verbose (s :: rest)

/-! ## Identifier and URL (lines 59-66) -/

/-- Lines 59-64: prepend `CVE-` when the prefix is missing. -/
def normalize (cveID : String) : String :=
  if !HasPrefix cveID "CVE-" then "CVE-" ++ cveID else cveID

/-- The fixed base path of line 66. -/
def baseURL : String := "https://services.nvd.nist.gov/rest/json/cve/1.0/"

/-- Line 66: `fmt.Sprintf` of the base path and the identifier. -/
def requestURL (cveID : String) : String := baseURL ++ cveID

/-! ## Decoding and rendering (lines 75-103) -/

/-- Lines 75-78: the raw echo of verbose mode; `fmt.Println` puts a blank
between its operands and a newline at the end. -/
def rawEcho (body : String) (verbose : Bool) : List Event :=
  if verbose then [.stdout ("Raw JSON Response:" ++ " " ++ body ++ "\n")] else []

/-- Lines 93-95: the header, the separator and the identifier row. -/
def tableHead (cveItem : CVEItem) : List Event :=
  [ .tabWrite "Field\tValue\n",
    .tabWrite "-----\t-----\n",
    .tabWrite ("CVE ID\t" ++ cveItem.CVE.DataMeta.ID ++ "\n") ]

/-- Lines 96-103: the remaining seven rows, given the first description,
and the flush. -/
def tableTail (cveItem : CVEItem) (first : DescriptionDatum) : List Event :=
  [ .tabWrite ("Description\t" ++ first.Value ++ "\n"),
    .tabWrite ("Published Date\t" ++ cveItem.PublishedDate ++ "\n"),
    .tabWrite ("Base Score\t" ++ formatFloat cveItem.Impact.BaseMetricV3.CVSSV3.BaseScore ++ "\n"),
    .tabWrite ("Severity\t" ++ cveItem.Impact.BaseMetricV3.CVSSV3.BaseSeverity ++ "\n"),
    .tabWrite ("Attack Vector\t" ++ cveItem.Impact.BaseMetricV3.CVSSV3.AttackVector ++ "\n"),
    .tabWrite ("Attack Complexity\t" ++ cveItem.Impact.BaseMetricV3.CVSSV3.AttackComplexity ++ "\n"),
    .tabWrite ("CVSS\t" ++ cveItem.Impact.BaseMetricV3.CVSSV3.VectorString ++ "\n"),
    .tabFlush ]

/-- Lines 75-103: echo, decode, emptiness check, table.  The index
`DescriptionData[0]` of line 96 is evaluated after the three writes of
lines 93-95 and before the fourth; on an empty sequence it panics. -/
def present (w : World) (body : String) (verbose : Bool) : Run :=
  match w.unmarshal body with
  | .error err =>
    ⟨rawEcho body verbose ++ [.logFatal ("Failed to unmarshal data: " ++ err)], .osExit 1⟩
  | .ok response =>
    match response.Result.CVEItems with
    | [] =>
      ⟨rawEcho body verbose ++ [.logFatal "No CVE data found for the given ID."], .osExit 1⟩
    | cveItem :: _ =>
      match cveItem.CVE.Description.DescriptionData with
      | [] =>
        ⟨rawEcho body verbose ++ tableHead cveItem,
          .panicked "index out of range [0] with length 0"⟩
      | first :: _ =>
        ⟨rawEcho body verbose ++ tableHead cveItem ++ tableTail cveItem first, .returned⟩

/-! ## The program (lines 44-104) -/

/-- Lines 59-103: the lookup for one positional argument.  The error of
`ioutil.ReadAll` is dropped (`body, _ :=`, line 73). -/
def lookup (w : World) (arg : String) (verbose : Bool) : Run :=
  let url := requestURL (normalize arg)
  match w.httpGet url with
  | .error err => ⟨[.httpGet url, .logFatal ("Failed to fetch data: " ++ err)], .osExit 1⟩
  | .ok resp =>
    let r := present w resp.body verbose
    ⟨.httpGet url :: r.trace, r.exit⟩

/-- The function `main` on the arguments after the program name.  The flag
set exits with status 2 on an error and with status 0 on `-h`. -/
def main (w : World) (osArgs : List String) : Run :=
  match flagParse osArgs false with
  | .failed err => ⟨[.flagError err, .usage], .osExit 2⟩
  | .help => ⟨[.usage], .osExit 0⟩
  | .parsed verbose args =>
    match args with
    | [arg] => lookup w arg verbose
    | _ => ⟨[.usage], .osExit 1⟩

/-! ## Notions the properties are stated with -/

/-- Text `s` begins with text `p`. -/
def StartsWith (s p : String) : Prop := ∃ t : String, s = p ++ t

/-- An ASCII letter, an ASCII digit or a hyphen. -/
def isAlnumHyphen (c : Char) : Bool := c.isAlphanum || c == '-'

/-- The magnitude of a finite `float64`, as a rational number. -/
def Float64.magnitude (x : Float64) : ℚ := (x.mant : ℚ) * (2 : ℚ) ^ x.exp

/-- The number a sequence of decimal digits denotes. -/
def decimalValue (ds : List Char) : Nat :=
  ds.foldl (fun a c => 10 * a + (c.toNat - '0'.toNat)) 0

/-- The digits `ds` are the decimal numeral of `n`: digits only, not empty,
no leading zero except for the numeral `0` itself. -/
def IsNumeralOf (ds : List Char) (n : Nat) : Prop :=
  (∀ c ∈ ds, c.isDigit = true) ∧ decimalValue ds = n ∧ ds ≠ [] ∧
  (ds = ['0'] ∨ ds.head? ≠ some '0')

/-- The text `s` is the decimal rendering of `x` with six decimals: an
optional minus sign, the numeral of the integer part, a point and six
digits, which together denote the multiple of `10^-6` nearest to the
magnitude of `x`, the even one of two equally near. -/
def IsSixDecimalRendering (x : Float64) (s : String) : Prop :=
  ∃ (n : Nat) (ip fp : List Char),
    s.data = (if x.neg then ['-'] else []) ++ ip ++ '.' :: fp ∧
    IsNumeralOf ip (n / 10 ^ 6) ∧
    fp.length = 6 ∧ (∀ c ∈ fp, c.isDigit = true) ∧ decimalValue fp = n % 10 ^ 6 ∧
    |(n : ℚ) - x.magnitude * 10 ^ 6| ≤ 1 / 2 ∧
    (|(n : ℚ) - x.magnitude * 10 ^ 6| = 1 / 2 → n % 2 = 0)

/-- The event is output: text written to standard output, a write handed to
the table writer, or its flush. -/
def Event.isOutput : Event → Bool
  | .stdout _ => true
  | .tabWrite _ => true
  | .tabFlush => true
  | _ => false

/-- The event belongs to the table. -/
def Event.isTable : Event → Bool
  | .tabWrite _ => true
  | .tabFlush => true
  | _ => false

/-! ## Sample data: the scenarios of the specification -/

/-- The `float64` nearest to `8.8`. -/
def score88 : Float64 := ⟨false, 4953959590107546, -49⟩

/-- The record of the end-to-end scenario. -/
def printNightmare : CVEItem :=
  { CVE := ⟨⟨"CVE-2021-34527"⟩, ⟨[⟨"PrintNightmare"⟩]⟩⟩,
    Impact := ⟨⟨⟨score88, "HIGH", "NETWORK", "LOW", "CVSS:3.1/..."⟩⟩⟩,
    PublishedDate := "2021-07-02T00:00Z" }

/-- The record an empty JSON object decodes to: every field at its zero
value. -/
def zeroItem : CVEItem :=
  { CVE := ⟨⟨""⟩, ⟨[]⟩⟩,
    Impact := ⟨⟨⟨Float64.zero, "", "", "", ""⟩⟩⟩,
    PublishedDate := "" }

/-- The body of the end-to-end scenario. -/
def printNightmareBody : String :=
  "\x7b\"result\":\x7b\"CVE_Items\":[\x7b\"cve\":\x7b\"CVE_data_meta\":\x7b\"ID\":\"CVE-2021-34527\"\x7d,\"description\":\x7b\"description_data\":[\x7b\"value\":\"PrintNightmare\"\x7d]\x7d\x7d,\"impact\":\x7b\"baseMetricV3\":\x7b\"cvssV3\":\x7b\"baseScore\":8.8,\"baseSeverity\":\"HIGH\",\"attackVector\":\"NETWORK\",\"attackComplexity\":\"LOW\",\"vectorString\":\"CVSS:3.1/...\"\x7d\x7d\x7d,\"publishedDate\":\"2021-07-02T00:00Z\"\x7d]\x7d\x7d"

/-- The body for an unknown identifier: no item. -/
def emptyBody : String := "\x7b\"result\":\x7b\"CVE_Items\":[]\x7d\x7d"

/-- A body with one item that carries no field at all. -/
def bareItemBody : String := "\x7b\"result\":\x7b\"CVE_Items\":[\x7b\x7d]\x7d\x7d"

/-- A body cut off after its first bytes. -/
def truncatedBody : String := "\x7b\"result\":"

/-- The JSON decoder on the sample bodies; every other body is rejected. -/
def sampleUnmarshal (body : String) : Except String APIResponse :=
  if body = printNightmareBody then .ok ⟨⟨[printNightmare]⟩⟩
  else if body = emptyBody then .ok ⟨⟨[]⟩⟩
  else if body = bareItemBody then .ok ⟨⟨[zeroItem]⟩⟩
  else if body = truncatedBody then .error "unexpected end of JSON input"
  else .error "invalid character"

/-- A server that knows `CVE-2021-34527`, answers `CVE-0000-00000` with no
item, and whose answers for `CVE-2021-1675` and `CVE-2021-1` break off
while the body is read: the first after the whole body has arrived, the
second after its first bytes.  Any other request fails to connect. -/
def sampleHttpGet (url : String) : Except String Response :=
  if url = baseURL ++ "CVE-2021-34527" then .ok ⟨printNightmareBody, none⟩
  else if url = baseURL ++ "CVE-0000-00000" then .ok ⟨emptyBody, none⟩
  else if url = baseURL ++ "CVE-2021-1675" then .ok ⟨printNightmareBody, some "unexpected EOF"⟩
  else if url = baseURL ++ "CVE-2021-1" then .ok ⟨truncatedBody, some "unexpected EOF"⟩
  else .error "connection refused"

/-- The sample world. -/
def sampleWorld : World := ⟨sampleHttpGet, sampleUnmarshal⟩

/-! ## Lemmas on the identifier -/

theorem hasPrefix_iff (s p : String) : HasPrefix s p = true ↔ StartsWith s p := by
  unfold HasPrefix StartsWith
  constructor
  · intro h
    simp only [Bool.and_eq_true, decide_eq_true_eq, beq_iff_eq] at h
    refine ⟨String.mk (s.data.drop p.length), ?_⟩
    apply String.ext
    rw [String.data_append, ← h.2]
    exact (List.take_append_drop _ _).symm
  · rintro ⟨t, rfl⟩
    simp only [Bool.and_eq_true, decide_eq_true_eq, beq_iff_eq]
    refine ⟨by rw [String.length_append]; omega, ?_⟩
    rw [String.data_append]
    exact List.take_left' rfl

theorem hasPrefix_false_iff (s p : String) : HasPrefix s p = false ↔ ¬ StartsWith s p := by
  rw [← hasPrefix_iff, Bool.not_eq_true]

theorem normalize_of_startsWith (x : String) (h : StartsWith x "CVE-") : normalize x = x := by
  have := (hasPrefix_iff x "CVE-").2 h
  simp [normalize, this]

theorem normalize_of_not_startsWith (x : String) (h : ¬ StartsWith x "CVE-") :
    normalize x = "CVE-" ++ x := by
  have := (hasPrefix_false_iff x "CVE-").2 h
  simp [normalize, this]

theorem normalize_startsWith (x : String) : StartsWith (normalize x) "CVE-" := by
  by_cases h : StartsWith x "CVE-"
  · rw [normalize_of_startsWith x h]; exact h
  · rw [normalize_of_not_startsWith x h]; exact ⟨x, rfl⟩

theorem not_startsWith_lowercase : ¬ StartsWith "cve-2021-1" "CVE-" := by
  rw [← hasPrefix_iff]; decide

theorem startsWith_canonical : StartsWith "CVE-2021-34527" "CVE-" := ⟨"2021-34527", by decide⟩

/-! ## The normalizer -/

/-- C4: an identifier that does not begin with the literal `CVE-` gets the
prefix prepended, once; one that begins with it is returned unchanged; the
result always begins with `CVE-`.  The test is case-sensitive:
`cve-2021-1` becomes `CVE-cve-2021-1`. -/
theorem normalize_prepends_once (x : String) :
    (¬ StartsWith x "CVE-" → normalize x = "CVE-" ++ x) ∧
    (StartsWith x "CVE-" → normalize x = x) ∧
    StartsWith (normalize x) "CVE-" ∧
    normalize "cve-2021-1" = "CVE-cve-2021-1" :=
  ⟨normalize_of_not_startsWith x, normalize_of_startsWith x, normalize_startsWith x, by decide⟩

/-- C4 at `cve-2021-1` (prefix missing) and at `CVE-2021-34527` (prefix
present). -/
theorem normalize_prepends_once_witness :
    normalize "cve-2021-1" = "CVE-" ++ "cve-2021-1" ∧
    normalize "CVE-2021-34527" = "CVE-2021-34527" :=
  ⟨(normalize_prepends_once "cve-2021-1").1 not_startsWith_lowercase,
   (normalize_prepends_once "CVE-2021-34527").2.1 startsWith_canonical⟩

/-- C5: the normalizer is idempotent, on every identifier. -/
theorem normalize_idempotent (x : String) : normalize (normalize x) = normalize x :=
  normalize_of_startsWith _ (normalize_startsWith x)

/-- C10, as stated, fails: the token `a/b?c=d#e` is not empty, its
identifier holds characters other than ASCII letters, digits and hyphens,
and the URL carries a further path segment, a query and a fragment. -/
theorem normalize_not_url_safe :
    "a/b?c=d#e" ≠ "" ∧
    (normalize "a/b?c=d#e").data.all isAlnumHyphen = false ∧
    requestURL (normalize "a/b?c=d#e") = baseURL ++ "CVE-a/b?c=d#e" := by
  decide

/-- C10, amended: for every token the URL is the base path followed by the
identifier; and when the token holds only ASCII letters, digits and
hyphens, so does the identifier, and what follows the base path in the URL
holds no `/`, `?` or `#`. -/
theorem requestURL_of_safe_token (x : String) :
    requestURL (normalize x) = baseURL ++ normalize x ∧
    (requestURL (normalize x)).data.drop baseURL.length = (normalize x).data ∧
    (x.data.all isAlnumHyphen = true →
      (normalize x).data.all isAlnumHyphen = true ∧
      ∀ c ∈ (requestURL (normalize x)).data.drop baseURL.length,
        c ≠ '/' ∧ c ≠ '?' ∧ c ≠ '#') := by
  have hd : (requestURL (normalize x)).data.drop baseURL.length = (normalize x).data := by
    rw [requestURL, String.data_append]
    exact List.drop_left' rfl
  refine ⟨rfl, hd, ?_⟩
  intro h
  have hn : (normalize x).data.all isAlnumHyphen = true := by
    by_cases hs : StartsWith x "CVE-"
    · rw [normalize_of_startsWith x hs]; exact h
    · rw [normalize_of_not_startsWith x hs, String.data_append, List.all_append, h]
      decide
  refine ⟨hn, ?_⟩
  intro c hc
  rw [hd] at hc
  have := List.all_eq_true.1 hn c hc
  refine ⟨?_, ?_, ?_⟩ <;> rintro rfl <;> revert this <;> decide

/-- C10 amended, at the token `2021-34527`, which holds only digits and a
hyphen, and at the token `a/b?c=d#e`, which does not. -/
theorem requestURL_of_safe_token_witness :
    requestURL (normalize "a/b?c=d#e") = baseURL ++ normalize "a/b?c=d#e" ∧
    (normalize "2021-34527").data.all isAlnumHyphen = true ∧
    ∀ c ∈ (requestURL (normalize "2021-34527")).data.drop baseURL.length,
      c ≠ '/' ∧ c ≠ '?' ∧ c ≠ '#' :=
  ⟨(requestURL_of_safe_token "a/b?c=d#e").1,
   (requestURL_of_safe_token "2021-34527").2.2 (by decide)⟩

/-! ## Lemmas on the rendering of the score -/

theorem digitChar_spec (k : Nat) (hk : k < 10) :
    (Nat.digitChar k).isDigit = true ∧ (Nat.digitChar k).toNat - '0'.toNat = k ∧
    (k ≠ 0 → Nat.digitChar k ≠ '0') := by
  interval_cases k <;> decide

theorem decimalValue_snoc (l : List Char) (d : Char) :
    decimalValue (l ++ [d]) = 10 * decimalValue l + (d.toNat - '0'.toNat) := by
  simp [decimalValue, List.foldl_append]

theorem decimalValue_zero_cons (l : List Char) : decimalValue ('0' :: l) = decimalValue l := by
  simp [decimalValue]

theorem decimalValue_replicate_zero (m : Nat) (l : List Char) :
    decimalValue (List.replicate m '0' ++ l) = decimalValue l := by
  induction m with
  | zero => rfl
  | succ m ih =>
    rw [List.replicate_succ, List.cons_append, decimalValue_zero_cons, ih]

theorem toDigitsCore_spec (fuel : Nat) : ∀ (n : Nat) (ds : List Char), n < fuel →
    ∃ l : List Char, Nat.toDigitsCore 10 fuel n ds = l ++ ds ∧ IsNumeralOf l n := by
  induction fuel with
  | zero => intro n ds h; omega
  | succ fuel ih =>
    intro n ds h
    have hd := digitChar_spec (n % 10) (Nat.mod_lt _ (by decide))
    by_cases h0 : n / 10 = 0
    · refine ⟨[Nat.digitChar (n % 10)], ?_, ?_, ?_, ?_, ?_⟩
      · simp [Nat.toDigitsCore, h0]
      · intro c hc
        rw [List.mem_singleton] at hc
        rw [hc]; exact hd.1
      · have : decimalValue [Nat.digitChar (n % 10)] =
            (Nat.digitChar (n % 10)).toNat - '0'.toNat := by
          simp [decimalValue]
        rw [this, hd.2.1]
        omega
      · simp
      · by_cases hn : n % 10 = 0
        · left; rw [hn]; rfl
        · right
          simp only [List.head?_cons, ne_eq, Option.some.injEq]
          exact hd.2.2 hn
    · obtain ⟨l, hl, hdig, hval, hne, hlead⟩ :=
        ih (n / 10) (Nat.digitChar (n % 10) :: ds) (by omega)
      refine ⟨l ++ [Nat.digitChar (n % 10)], ?_, ?_, ?_, ?_, ?_⟩
      · simp [Nat.toDigitsCore, h0, hl]
      · intro c hc
        rcases List.mem_append.1 hc with hc | hc
        · exact hdig c hc
        · rw [List.mem_singleton] at hc
          rw [hc]; exact hd.1
      · rw [decimalValue_snoc, hval, hd.2.1]
        omega
      · simp
      · right
        rcases hlead with hlead | hlead
        · exfalso
          rw [hlead] at hval
          exact h0 hval.symm
        · cases l with
          | nil => exact absurd rfl hne
          | cons a l => simpa using hlead

theorem repr_isNumeralOf (n : Nat) : IsNumeralOf (Nat.repr n).data n := by
  obtain ⟨l, hl, h⟩ := toDigitsCore_spec (n + 1) n [] (Nat.lt_succ_self n)
  have : (Nat.repr n).data = l := by
    simp [Nat.repr, Nat.toDigits, hl, List.asString]
  rw [this]; exact h

theorem frac6_spec (k : Nat) (hk : k < 10 ^ 6) :
    (frac6 k).data.length = 6 ∧ (∀ c ∈ (frac6 k).data, c.isDigit = true) ∧
    decimalValue (frac6 k).data = k := by
  have hlen : (Nat.repr k).data.length ≤ 6 := Nat.repr_length k 6 (by decide) hk
  obtain ⟨hdig, hval, -, -⟩ := repr_isNumeralOf k
  have hdata : (frac6 k).data =
      List.replicate (6 - (Nat.repr k).data.length) '0' ++ (Nat.repr k).data := by
    unfold frac6
    rw [String.data_append]
    rfl
  rw [hdata]
  refine ⟨?_, ?_, ?_⟩
  · rw [List.length_append, List.length_replicate]; omega
  · intro c hc
    rcases List.mem_append.1 hc with hc | hc
    · rw [(List.mem_replicate.1 hc).2]; rfl
    · exact hdig c hc
  · rw [decimalValue_replicate_zero, hval]

theorem roundHalfEven_nearest (num den : Nat) (hden : 0 < den) :
    |(((if den < 2 * (num % den) ∨ (2 * (num % den) = den ∧ num / den % 2 = 1)
        then num / den + 1 else num / den : Nat) : ℚ)) - (num : ℚ) / den| ≤ 1 / 2 ∧
    (|(((if den < 2 * (num % den) ∨ (2 * (num % den) = den ∧ num / den % 2 = 1)
        then num / den + 1 else num / den : Nat) : ℚ)) - (num : ℚ) / den| = 1 / 2 →
      (if den < 2 * (num % den) ∨ (2 * (num % den) = den ∧ num / den % 2 = 1)
        then num / den + 1 else num / den) % 2 = 0) := by
  have hD : (0 : ℚ) < den := by exact_mod_cast hden
  have hnum : (num : ℚ) = den * (num / den : Nat) + (num % den : Nat) := by
    exact_mod_cast (Nat.div_add_mod num den).symm
  have hr : ((num % den : Nat) : ℚ) < den := by exact_mod_cast Nat.mod_lt num hden
  have hr0 : (0 : ℚ) ≤ ((num % den : Nat) : ℚ) := Nat.cast_nonneg _
  have hv : (num : ℚ) / den = (num / den : Nat) + ((num % den : Nat) : ℚ) / den := by
    rw [div_eq_iff hD.ne']
    rw [add_mul, div_mul_cancel₀ _ hD.ne']
    linarith
  have ht0 : (0 : ℚ) ≤ ((num % den : Nat) : ℚ) / den := div_nonneg hr0 hD.le
  have ht1 : ((num % den : Nat) : ℚ) / den < 1 := (div_lt_one hD).2 hr
  have hhalf : ∀ a b : Nat, (0 : ℚ) < b → ((a : ℚ) / b = 1 / 2 ↔ 2 * a = b) := by
    intro a b hb
    rw [div_eq_div_iff hb.ne' (by norm_num)]
    constructor
    · intro h; exact_mod_cast (by linarith : (2 : ℚ) * a = b)
    · intro h
      have : (2 : ℚ) * a = b := by exact_mod_cast h
      linarith
  have hlt : den < 2 * (num % den) ↔ 1 / 2 < ((num % den : Nat) : ℚ) / den := by
    rw [lt_div_iff₀ hD]
    constructor
    · intro h
      have : (den : ℚ) < 2 * ((num % den : Nat) : ℚ) := by exact_mod_cast h
      linarith
    · intro h
      have : (den : ℚ) < 2 * ((num % den : Nat) : ℚ) := by linarith
      exact_mod_cast this
  rw [hv]
  split_ifs with h
  · have he : (((num / den + 1 : Nat) : ℚ)) -
        ((num / den : Nat) + ((num % den : Nat) : ℚ) / den) =
        1 - ((num % den : Nat) : ℚ) / den := by
      push_cast; ring
    rw [he, abs_of_nonneg (by linarith)]
    rcases h with h | ⟨h, hq⟩
    · have := hlt.1 h
      exact ⟨by linarith, fun h2 => by linarith⟩
    · have := (hhalf _ _ hD).2 h
      exact ⟨by linarith, fun _ => by omega⟩
  · have he : (((num / den : Nat) : ℚ)) -
        ((num / den : Nat) + ((num % den : Nat) : ℚ) / den) =
        -(((num % den : Nat) : ℚ) / den) := by
      ring
    rw [he, abs_neg, abs_of_nonneg ht0]
    have h1 : ¬ den < 2 * (num % den) := fun h1 => h (Or.inl h1)
    have h2 : ¬ (1 / 2 < ((num % den : Nat) : ℚ) / den) := fun h2 => h1 (hlt.2 h2)
    refine ⟨by linarith, fun h3 => ?_⟩
    have h4 := (hhalf _ _ hD).1 h3
    have h5 : ¬ (num / den % 2 = 1) := fun h5 => h (Or.inr ⟨h4, h5⟩)
    omega

theorem scaledRound_nearest (mant : Nat) (exp : Int) :
    |((scaledRound mant exp : Nat) : ℚ) - (mant : ℚ) * (2 : ℚ) ^ exp * 10 ^ 6| ≤ 1 / 2 ∧
    (|((scaledRound mant exp : Nat) : ℚ) - (mant : ℚ) * (2 : ℚ) ^ exp * 10 ^ 6| = 1 / 2 →
      scaledRound mant exp % 2 = 0) := by
  by_cases h : 0 ≤ exp
  · have hv : (mant : ℚ) * (2 : ℚ) ^ exp * 10 ^ 6 =
        ((mant * 2 ^ exp.toNat * 10 ^ 6 : Nat) : ℚ) / ((1 : Nat) : ℚ) := by
      have : (2 : ℚ) ^ exp = (2 : ℚ) ^ exp.toNat := by
        rw [← zpow_natCast, Int.toNat_of_nonneg h]
      rw [this]; push_cast; ring
    have hs : scaledRound mant exp =
        (if 1 < 2 * ((mant * 2 ^ exp.toNat * 10 ^ 6) % 1) ∨
            (2 * ((mant * 2 ^ exp.toNat * 10 ^ 6) % 1) = 1 ∧
              (mant * 2 ^ exp.toNat * 10 ^ 6) / 1 % 2 = 1)
          then (mant * 2 ^ exp.toNat * 10 ^ 6) / 1 + 1
          else (mant * 2 ^ exp.toNat * 10 ^ 6) / 1) := by
      simp only [scaledRound, if_pos h]
    rw [hv, hs]
    exact roundHalfEven_nearest _ 1 Nat.one_pos
  · have hneg : ((-exp).toNat : Int) = -exp := Int.toNat_of_nonneg (by omega)
    have hv : (mant : ℚ) * (2 : ℚ) ^ exp * 10 ^ 6 =
        ((mant * 10 ^ 6 : Nat) : ℚ) / ((2 ^ (-exp).toNat : Nat) : ℚ) := by
      have : (2 : ℚ) ^ exp = ((2 : ℚ) ^ (-exp).toNat)⁻¹ := by
        rw [← zpow_natCast, hneg, zpow_neg, inv_inv]
      rw [this]; push_cast; ring
    have hs : scaledRound mant exp =
        (if 2 ^ (-exp).toNat < 2 * ((mant * 10 ^ 6) % 2 ^ (-exp).toNat) ∨
            (2 * ((mant * 10 ^ 6) % 2 ^ (-exp).toNat) = 2 ^ (-exp).toNat ∧
              (mant * 10 ^ 6) / 2 ^ (-exp).toNat % 2 = 1)
          then (mant * 10 ^ 6) / 2 ^ (-exp).toNat + 1
          else (mant * 10 ^ 6) / 2 ^ (-exp).toNat) := by
      simp only [scaledRound, if_neg h]
    rw [hv, hs]
    exact roundHalfEven_nearest _ _ (Nat.pow_pos (by decide))

theorem formatFloat_rendering (x : Float64) : IsSixDecimalRendering x (formatFloat x) := by
  have hk : scaledRound x.mant x.exp % 10 ^ 6 < 10 ^ 6 := Nat.mod_lt _ (by norm_num)
  obtain ⟨hlen, hdig, hval⟩ := frac6_spec _ hk
  obtain ⟨hn1, hn2⟩ := scaledRound_nearest x.mant x.exp
  refine ⟨scaledRound x.mant x.exp, (Nat.repr (scaledRound x.mant x.exp / 10 ^ 6)).data,
    (frac6 (scaledRound x.mant x.exp % 10 ^ 6)).data, ?_, repr_isNumeralOf _, hlen, hdig, hval,
    hn1, hn2⟩
  unfold formatFloat
  cases x.neg <;> simp [String.data_append]

theorem score88_near_8_8 : |score88.magnitude - 88 / 10| ≤ 1 / 2 ^ 50 := by
  have h : score88.magnitude = 4953959590107546 / 2 ^ 49 := by
    simp only [Float64.magnitude, score88]
    rw [show (-49 : Int) = -((49 : Nat) : Int) from rfl, zpow_neg, zpow_natCast]
    norm_num
  rw [h, abs_le]
  constructor <;> norm_num

/-! ## The presenter -/

set_option maxRecDepth 100000 in
theorem sampleUnmarshal_printNightmare :
    sampleWorld.unmarshal printNightmareBody = .ok ⟨⟨[printNightmare]⟩⟩ := by
  rfl

set_option maxRecDepth 100000 in
theorem sampleUnmarshal_empty : sampleWorld.unmarshal emptyBody = .ok ⟨⟨[]⟩⟩ := by
  rfl

set_option maxRecDepth 100000 in
theorem sampleUnmarshal_bareItem : sampleWorld.unmarshal bareItemBody = .ok ⟨⟨[zeroItem]⟩⟩ := by
  rfl

set_option maxRecDepth 100000 in
theorem sampleUnmarshal_truncated :
    sampleWorld.unmarshal truncatedBody = .error "unexpected end of JSON input" := by
  rfl

theorem score88_nearest :
    2 ^ 52 ≤ score88.mant ∧ score88.mant < 2 ^ 53 ∧
    88 * 2 ^ 49 ≤ 10 * score88.mant ∧ (10 * score88.mant - 88 * 2 ^ 49) * 2 ≤ 10 := by
  decide

theorem rawEcho_true (body : String) :
    rawEcho body true = [.stdout ("Raw JSON Response:" ++ " " ++ body ++ "\n")] := rfl

theorem rawEcho_isTable (body : String) (verbose : Bool) :
    (rawEcho body verbose).filter Event.isTable = [] := by
  cases verbose <;> rfl

theorem rawEcho_isOutput (body : String) (verbose : Bool) :
    (rawEcho body verbose).filter Event.isOutput = rawEcho body verbose := by
  cases verbose <;> rfl

/-- C1: when the body decodes to an envelope whose first item has a first
description, the presenter returns normally after handing the table writer
the header, the separator and eight rows, in the order CVE ID,
Description, Published Date, Base Score, Severity, Attack Vector, Attack
Complexity, CVSS, each with the field of the first item as its value (the
score through `%f`), and flushing it.  No further item and no further
description enters the result.  The text printed for the score is its
decimal rendering with six decimals: sign, numeral of the integer part,
point and six digits, denoting the multiple of `10^-6` nearest to the
score, ties to even.  The `float64` nearest to 8.8 lies within `2^-50` of
8.8 and prints as `8.800000`. -/
theorem present_renders_first_item (w : World) (body : String) (verbose : Bool)
    (response : APIResponse) (cveItem : CVEItem) (rest : List CVEItem)
    (first : DescriptionDatum) (more : List DescriptionDatum)
    (hdec : w.unmarshal body = .ok response)
    (hitems : response.Result.CVEItems = cveItem :: rest)
    (hdesc : cveItem.CVE.Description.DescriptionData = first :: more) :
    present w body verbose =
      ⟨rawEcho body verbose ++
        [ .tabWrite "Field\tValue\n",
          .tabWrite "-----\t-----\n",
          .tabWrite ("CVE ID\t" ++ cveItem.CVE.DataMeta.ID ++ "\n"),
          .tabWrite ("Description\t" ++ first.Value ++ "\n"),
          .tabWrite ("Published Date\t" ++ cveItem.PublishedDate ++ "\n"),
          .tabWrite ("Base Score\t" ++
            formatFloat cveItem.Impact.BaseMetricV3.CVSSV3.BaseScore ++ "\n"),
          .tabWrite ("Severity\t" ++ cveItem.Impact.BaseMetricV3.CVSSV3.BaseSeverity ++ "\n"),
          .tabWrite ("Attack Vector\t" ++
            cveItem.Impact.BaseMetricV3.CVSSV3.AttackVector ++ "\n"),
          .tabWrite ("Attack Complexity\t" ++
            cveItem.Impact.BaseMetricV3.CVSSV3.AttackComplexity ++ "\n"),
          .tabWrite ("CVSS\t" ++ cveItem.Impact.BaseMetricV3.CVSSV3.VectorString ++ "\n"),
          .tabFlush ],
       .returned⟩ ∧
    (present w body verbose).exit.status = 0 ∧
    IsSixDecimalRendering cveItem.Impact.BaseMetricV3.CVSSV3.BaseScore
      (formatFloat cveItem.Impact.BaseMetricV3.CVSSV3.BaseScore) ∧
    |score88.magnitude - 88 / 10| ≤ 1 / 2 ^ 50 ∧
    formatFloat score88 = "8.800000" := by
  have hp : present w body verbose =
      ⟨rawEcho body verbose ++ tableHead cveItem ++ tableTail cveItem first, .returned⟩ := by
    simp only [present, hdec, hitems, hdesc]
  refine ⟨?_, ?_, formatFloat_rendering _, score88_near_8_8, by decide⟩
  · rw [hp, List.append_assoc]; rfl
  · rw [hp]; rfl

set_option maxRecDepth 100000 in
/-- C1 on the end-to-end scenario: the table has the rows
`CVE ID = CVE-2021-34527`, `Base Score = 8.800000`, `Severity = HIGH`, and
the status is 0. -/
theorem present_renders_first_item_witness :
    present sampleWorld printNightmareBody false =
      ⟨[ .tabWrite "Field\tValue\n",
         .tabWrite "-----\t-----\n",
         .tabWrite "CVE ID\tCVE-2021-34527\n",
         .tabWrite "Description\tPrintNightmare\n",
         .tabWrite "Published Date\t2021-07-02T00:00Z\n",
         .tabWrite "Base Score\t8.800000\n",
         .tabWrite "Severity\tHIGH\n",
         .tabWrite "Attack Vector\tNETWORK\n",
         .tabWrite "Attack Complexity\tLOW\n",
         .tabWrite "CVSS\tCVSS:3.1/...\n",
         .tabFlush ],
       .returned⟩ :=
  (present_renders_first_item sampleWorld printNightmareBody false
    ⟨⟨[printNightmare]⟩⟩ printNightmare [] ⟨"PrintNightmare"⟩ []
    sampleUnmarshal_printNightmare rfl rfl).1.trans (by decide)

theorem notFound_ne_of_hasPrefix (p err : String)
    (hp : HasPrefix "No CVE data found for the given ID." p = false) :
    "No CVE data found for the given ID." ≠ p ++ err := by
  intro h
  exact (hasPrefix_false_iff _ _).1 hp ⟨err, h⟩

/-- C2: when the body decodes to an envelope with no item, the presenter
ends through `log.Fatalf` with the message `No CVE data found for the given
ID.` and status 1; nothing is handed to the table writer and the table
writer is never flushed, so the raw echo of verbose mode is all that is
written; the message is none of the messages a decode or a transport error
gives. -/
theorem present_zero_items (w : World) (body : String) (verbose : Bool)
    (response : APIResponse)
    (hdec : w.unmarshal body = .ok response)
    (hitems : response.Result.CVEItems = []) :
    present w body verbose =
      ⟨(if verbose then [.stdout ("Raw JSON Response:" ++ " " ++ body ++ "\n")] else []) ++
        [.logFatal "No CVE data found for the given ID."], .osExit 1⟩ ∧
    (present w body verbose).exit.status ≠ 0 ∧
    (present w body verbose).trace.filter Event.isTable = [] ∧
    (∀ err : String,
      "No CVE data found for the given ID." ≠ "Failed to unmarshal data: " ++ err ∧
      "No CVE data found for the given ID." ≠ "Failed to fetch data: " ++ err) := by
  have hp : present w body verbose =
      ⟨rawEcho body verbose ++ [.logFatal "No CVE data found for the given ID."],
        .osExit 1⟩ := by
    simp only [present, hdec, hitems]
  refine ⟨hp, ?_, ?_, ?_⟩
  · rw [hp]; exact Nat.one_ne_zero
  · rw [hp, List.filter_append, rawEcho_isTable]; rfl
  · intro err
    exact ⟨notFound_ne_of_hasPrefix _ err (by decide), notFound_ne_of_hasPrefix _ err (by decide)⟩

/-- C2 on the scenario of the unknown identifier: the body with no item. -/
theorem present_zero_items_witness :
    present sampleWorld emptyBody false =
      ⟨[.logFatal "No CVE data found for the given ID."], .osExit 1⟩ :=
  (present_zero_items sampleWorld emptyBody false ⟨⟨[]⟩⟩ sampleUnmarshal_empty rfl).1

/-- C8: when the decoder rejects the body, the presenter ends through
`log.Fatalf` with the decoder's error and status 1; nothing is handed to
the table writer, and the output is the raw echo when verbose is set and
nothing otherwise. -/
theorem present_decode_error (w : World) (body : String) (verbose : Bool) (err : String)
    (hdec : w.unmarshal body = .error err) :
    present w body verbose =
      ⟨(if verbose then [.stdout ("Raw JSON Response:" ++ " " ++ body ++ "\n")] else []) ++
        [.logFatal ("Failed to unmarshal data: " ++ err)], .osExit 1⟩ ∧
    (present w body verbose).exit.status ≠ 0 ∧
    (present w body verbose).trace.filter Event.isTable = [] ∧
    (present w body verbose).trace.filter Event.isOutput =
      (if verbose then [.stdout ("Raw JSON Response:" ++ " " ++ body ++ "\n")] else []) := by
  have hp : present w body verbose =
      ⟨rawEcho body verbose ++ [.logFatal ("Failed to unmarshal data: " ++ err)],
        .osExit 1⟩ := by
    simp only [present, hdec]
  refine ⟨hp, ?_, ?_, ?_⟩
  · rw [hp]; exact Nat.one_ne_zero
  · rw [hp, List.filter_append, rawEcho_isTable]; rfl
  · rw [hp, List.filter_append, rawEcho_isOutput]
    exact List.append_nil _

/-- C8 on a body cut off in the middle, with and without the raw echo. -/
theorem present_decode_error_witness :
    present sampleWorld truncatedBody false =
      ⟨[.logFatal "Failed to unmarshal data: unexpected end of JSON input"], .osExit 1⟩ ∧
    (present sampleWorld truncatedBody true).trace.filter Event.isOutput =
      [.stdout ("Raw JSON Response:" ++ " " ++ truncatedBody ++ "\n")] :=
  ⟨(present_decode_error sampleWorld truncatedBody false _ sampleUnmarshal_truncated).1,
   (present_decode_error sampleWorld truncatedBody true _ sampleUnmarshal_truncated).2.2.2⟩

/-- C7: with verbose set, the first event of the presenter is the line
`Raw JSON Response:`, a blank, the body unchanged and a newline, written
to standard output, and the rest of the run is the run without verbose.
So the line is there when decoding fails, when the envelope has no item,
and when the table is rendered, where the table follows it. -/
theorem present_verbose_echo_first (w : World) (body : String) :
    (present w body true).trace =
      .stdout ("Raw JSON Response:" ++ " " ++ body ++ "\n") :: (present w body false).trace ∧
    (present w body true).exit = (present w body false).exit ∧
    (∀ err, w.unmarshal body = .error err →
      present w body true =
        ⟨[.stdout ("Raw JSON Response:" ++ " " ++ body ++ "\n"),
          .logFatal ("Failed to unmarshal data: " ++ err)], .osExit 1⟩) ∧
    (∀ response, w.unmarshal body = .ok response → response.Result.CVEItems = [] →
      present w body true =
        ⟨[.stdout ("Raw JSON Response:" ++ " " ++ body ++ "\n"),
          .logFatal "No CVE data found for the given ID."], .osExit 1⟩) ∧
    (∀ response cveItem rest first more, w.unmarshal body = .ok response →
      response.Result.CVEItems = cveItem :: rest →
      cveItem.CVE.Description.DescriptionData = first :: more →
      present w body true =
        ⟨.stdout ("Raw JSON Response:" ++ " " ++ body ++ "\n") ::
          (tableHead cveItem ++ tableTail cveItem first), .returned⟩) := by
  refine ⟨?_, ?_, ?_, ?_, ?_⟩
  · simp only [present]
    split
    · rfl
    · split
      · rfl
      · split <;> rfl
  · simp only [present]
    split
    · rfl
    · split
      · rfl
      · split <;> rfl
  · intro err hdec
    simp only [present, hdec]; rfl
  · intro response hdec hitems
    simp only [present, hdec, hitems]; rfl
  · intro response cveItem rest first more hdec hitems hdesc
    simp only [present, hdec, hitems, hdesc]; rfl

set_option maxRecDepth 100000 in
/-- C7 on the three sample bodies: cut off, no item, one full item. -/
theorem present_verbose_echo_first_witness :
    present sampleWorld truncatedBody true =
      ⟨[.stdout ("Raw JSON Response:" ++ " " ++ truncatedBody ++ "\n"),
        .logFatal "Failed to unmarshal data: unexpected end of JSON input"], .osExit 1⟩ ∧
    present sampleWorld emptyBody true =
      ⟨[.stdout ("Raw JSON Response:" ++ " " ++ emptyBody ++ "\n"),
        .logFatal "No CVE data found for the given ID."], .osExit 1⟩ ∧
    present sampleWorld printNightmareBody true =
      ⟨.stdout ("Raw JSON Response:" ++ " " ++ printNightmareBody ++ "\n") ::
        (tableHead printNightmare ++ tableTail printNightmare ⟨"PrintNightmare"⟩),
        .returned⟩ :=
  ⟨(present_verbose_echo_first sampleWorld truncatedBody).2.2.1 _ sampleUnmarshal_truncated,
   (present_verbose_echo_first sampleWorld emptyBody).2.2.2.1 _ sampleUnmarshal_empty rfl,
   (present_verbose_echo_first sampleWorld printNightmareBody).2.2.2.2 _ _ _ _ _
     sampleUnmarshal_printNightmare rfl rfl⟩

set_option maxRecDepth 100000 in
/-- C3, on the code: an item with an empty description sequence makes the
presenter panic at `DescriptionData[0]`, after three writes to the table
writer and before any flush; on the body with one bare item the run is
exactly that. -/
theorem present_empty_description_panics :
    (∀ (w : World) (body : String) (verbose : Bool) (response : APIResponse)
      (cveItem : CVEItem) (rest : List CVEItem),
      w.unmarshal body = .ok response →
      response.Result.CVEItems = cveItem :: rest →
      cveItem.CVE.Description.DescriptionData = [] →
      present w body verbose =
        ⟨rawEcho body verbose ++ tableHead cveItem,
          .panicked "index out of range [0] with length 0"⟩) ∧
    present sampleWorld bareItemBody false =
      ⟨[ .tabWrite "Field\tValue\n", .tabWrite "-----\t-----\n", .tabWrite "CVE ID\t\n" ],
        .panicked "index out of range [0] with length 0"⟩ ∧
    (present sampleWorld bareItemBody false).exit.status = 2 := by
  refine ⟨?_, by decide, by decide⟩
  intro w body verbose response cveItem rest hdec hitems hdesc
  simp only [present, hdec, hitems, hdesc]

/-! ## The fetcher -/

set_option maxRecDepth 100000 in
/-- C6, on the code: the error of reading the body is dropped.  Whatever
bytes were read are echoed, decoded and rendered as if the read had
succeeded.  For `CVE-2021-1675` the read breaks off with `unexpected EOF`
after the whole body arrived: the table is rendered and `main` returns with
status 0, no error reported.  For `CVE-2021-1` it breaks off after the
first bytes: they are decoded, and the failure is reported as a decode
error. -/
theorem lookup_drops_read_error :
    (∀ (w : World) (arg : String) (verbose : Bool) (body : String) (e : Option String),
      w.httpGet (requestURL (normalize arg)) = .ok ⟨body, e⟩ →
      lookup w arg verbose =
        ⟨.httpGet (requestURL (normalize arg)) :: (present w body verbose).trace,
          (present w body verbose).exit⟩) ∧
    (sampleWorld.httpGet (requestURL (normalize "2021-1675"))).toOption.map Response.readErr =
      some (some "unexpected EOF") ∧
    main sampleWorld ["2021-1675"] =
      ⟨.httpGet (baseURL ++ "CVE-2021-1675") ::
        (tableHead printNightmare ++ tableTail printNightmare ⟨"PrintNightmare"⟩),
        .returned⟩ ∧
    (sampleWorld.httpGet (requestURL (normalize "2021-1"))).toOption.map Response.readErr =
      some (some "unexpected EOF") ∧
    main sampleWorld ["2021-1"] =
      ⟨[.httpGet (baseURL ++ "CVE-2021-1"),
        .logFatal "Failed to unmarshal data: unexpected end of JSON input"], .osExit 1⟩ := by
  refine ⟨?_, by decide, by decide, by decide, by decide⟩
  intro w arg verbose body e hget
  simp only [lookup, hget]

/-! ## The command line -/

theorem flagParse_nonflag (s : String) (rest : List String) (verbose : Bool)
    (h : s.length < 2 ∨ ¬ StartsWith s "-") :
    flagParse (s :: rest) verbose = .parsed verbose (s :: rest) := by
  unfold flagParse
  split
  · rename_i c cs hs
    exfalso
    rcases h with h | h
    · have hl : s.length = (s.data).length := rfl
      rw [hl, hs] at h
      simp only [List.length_cons] at h
      omega
    · apply h
      refine ⟨String.mk (c :: cs), ?_⟩
      apply String.ext
      rw [String.data_append, hs]
      rfl
  · rfl

theorem flagParse_v (rest : List String) (verbose : Bool) :
    flagParse ("-v" :: rest) verbose = flagParse rest true ∧
    flagParse ("--v" :: rest) verbose = flagParse rest true := by
  constructor <;> rw [flagParse] <;> simp


set_option maxRecDepth 100000 in
/-- C9, on the code: the invocation the usage line of the program prints,
`<CVE-ID> [-v]`, is rejected.  For every identifier that is not itself read
as a flag (shorter than two characters, or not starting with `-`), parsing
`[id, "-v"]` stops at the identifier: both tokens stay positional, verbose
stays unset, and `main` prints the usage and exits with status 1 without a
request.  The flag is honoured only before the identifier, where
`["-v", id]` runs the lookup with the raw echo.  No flag is named
`verbose`: `--verbose` ends the run with a flag error and status 2. -/
theorem flag_after_identifier_rejected :
    (∀ (w : World) (id : String), (id.length < 2 ∨ ¬ StartsWith id "-") →
      flagParse [id, "-v"] false = .parsed false [id, "-v"] ∧
      main w [id, "-v"] = ⟨[.usage], .osExit 1⟩ ∧
      flagParse ["-v", id] false = .parsed true [id] ∧
      main w ["-v", id] = lookup w id true) ∧
    (∀ (w : World) (rest : List String),
      main w ("--verbose" :: rest) =
        ⟨[.flagError (.notDefined "verbose"), .usage], .osExit 2⟩) ∧
    main sampleWorld ["2021-34527", "-v"] = ⟨[.usage], .osExit 1⟩ ∧
    (main sampleWorld ["2021-34527", "-v"]).exit.status ≠ 0 ∧
    main sampleWorld ["--verbose", "2021-34527"] =
      ⟨[.flagError (.notDefined "verbose"), .usage], .osExit 2⟩ := by
  refine ⟨?_, ?_, by decide, by decide, by decide⟩
  · intro w id h
    have h1 : flagParse [id, "-v"] false = .parsed false [id, "-v"] :=
      flagParse_nonflag id ["-v"] false h
    have h2 : flagParse ["-v", id] false = .parsed true [id] := by
      rw [(flagParse_v [id] false).1, flagParse_nonflag id [] true h]
    refine ⟨h1, ?_, h2, ?_⟩
    · simp only [main, h1]
    · simp only [main, h2]
  · intro w rest
    have h : flagParse ("--verbose" :: rest) false = .failed (.notDefined "verbose") := by
      rw [flagParse]; simp
    simp only [main, h]

end CveApp
